import Mathlib

/-! Order service: order lifecycle over a transactional store and a stock gateway.

Shallow embedding of

* `app/domain/order.go`, `app/domain/stock.go` (data model, interfaces),
* `app/repository/db/order.go` (`orderRepository`: SQL statements and `WithTransaction`),
* `app/usecase/order.go` (`orderUsecase`),
* `app/handler/order.go` (`OrderHandler.CreateOrder`).

Go state is passed explicitly: a `World` holds the committed rows of table `orders`, the id
sequence and the log of calls issued to the database connection and to the stock service.
The outcome of every interaction with the outside (SQL driver, clock, remote service) is an
input of the model (`Env`, `StockRepository`), so each failure path of the code can be taken.
-/

namespace OrderService

/-! ## Data model (`app/domain`) -/

/-- Instants of `time.Time`, as ticks; `0` stands for the zero value `time.Time{}`. -/
abbrev Time := Nat

/-- Go `error` values met by the code: the sentinels of package `domain` that the sources
refer to, the two sentinels of `database/sql` the repository compares against, and the
errors coming out of the SQL driver and of the stock service client. -/
inductive Error where
  | ErrNotFound
  | ErrUnauthorized
  | ErrBadRequest
  | ErrNoRows
  | ErrTxDone
  | driver (code : Nat)
  | gateway (code : Nat)
  deriving DecidableEq, Repr

/-- Constant `OrderStatusWaitingPayment`. -/
def OrderStatusWaitingPayment : String := "waiting_payment"

/-- Constant `OrderStatusPaid`. -/
def OrderStatusPaid : String := "paid"

/-- Constant `OrderStatusCancelled`. -/
def OrderStatusCancelled : String := "cancelled"

/-- Struct `domain.Order`. `OrderStatus` is a Go string type. Field `ExpiredAt` is the one
`orderRepository.CreateOrder` reads and `orderRepository.GetOrderByID` scans into. -/
structure Order where
  ID : Int
  ProductID : Int
  Quantity : Int
  UserID : Int
  Status : String
  CreatedAt : Time
  UpdatedAt : Time
  ExpiredAt : Time
  deriving DecidableEq, Repr

/-- The zero value `domain.Order{}`. -/
def Order.empty : Order :=
  { ID := 0, ProductID := 0, Quantity := 0, UserID := 0, Status := "",
    CreatedAt := 0, UpdatedAt := 0, ExpiredAt := 0 }

/-- Struct `domain.OrderUpdateStatusRequest`. -/
structure OrderUpdateStatusRequest where
  OrderID : Int
  Status : String
  deriving DecidableEq, Repr

/-- Struct `domain.OrderCreateRequest`. -/
structure OrderCreateRequest where
  ProductID : Int
  Quantity : Int
  deriving DecidableEq, Repr

/-- Struct `domain.ReservedStockCreateRequest`. -/
structure ReservedStockCreateRequest where
  ProductID : Int
  Quantity : Int
  OrderID : Int
  deriving DecidableEq, Repr

/-- Struct `domain.ReservedStockUpdateRequest`. -/
structure ReservedStockUpdateRequest where
  Status : String
  deriving DecidableEq, Repr

/-- Interface `domain.StockRepository`: what each remote call answers (`none` is `nil`). -/
structure StockRepository where
  CreateReservedStock : ReservedStockCreateRequest → Option Error
  UpdateReservedStockStatus : Int → ReservedStockUpdateRequest → Option Error

/-! ## The store: table `orders`, transactions, call log -/

/-- A row of table `orders`, columns in the order of the `INSERT` and `SELECT` statements. -/
structure Row where
  id : Int
  product_id : Int
  quantity : Int
  user_id : Int
  status : String
  created_at : Time
  updated_at : Time
  expired_at : Time
  deriving DecidableEq, Repr

/-- Calls issued by the code to the database connection (transaction control and the two
write statements) and to the stock service, whether or not they succeed. -/
inductive Event where
  | begin
  | commit
  | rollback
  | insert (productID quantity userID : Int) (status : String)
  | update (id : Int) (status : String)
  | reserve (req : ReservedStockCreateRequest)
  | setStatus (orderID : Int) (req : ReservedStockUpdateRequest)
  deriving DecidableEq, Repr

/-- State outside the process: committed rows of `orders`, the last value of the sequence
behind column `id`, and the calls issued so far. -/
structure World where
  orders : List Row
  lastID : Int
  log : List Event
  deriving DecidableEq, Repr

/-- Outcomes of the interactions of one call with the SQL driver and the clocks: an error
for each kind of driver call (`none`: the call succeeds), the two readings of `time.Now()`
in `orderRepository.CreateOrder`, and the value of SQL `now()`. -/
structure Env where
  beginTx : Option Error
  insert : Option Error
  update : Option Error
  commit : Option Error
  rollback : Option Error
  query : Option Error
  timeNow1 : Time
  timeNow2 : Time
  sqlNow : Time
  deriving DecidableEq, Repr

/-- An environment in which every driver call succeeds. -/
def Env.ok (t1 t2 t3 : Time) : Env :=
  { beginTx := none, insert := none, update := none, commit := none, rollback := none,
    query := none, timeNow1 := t1, timeNow2 := t2, sqlNow := t3 }

/-- A `*sql.Tx`: the rows as the transaction sees them (snapshot of the committed rows plus
its own writes), and whether it has been committed or rolled back. -/
structure Tx where
  view : List Row
  done : Bool
  deriving DecidableEq, Repr

/-- Every id in the table has been drawn from the sequence. -/
def World.WF (w : World) : Prop := ∀ r ∈ w.orders, r.id ≤ w.lastID

instance (w : World) : Decidable w.WF := by
  unfold World.WF
  infer_instance

/-- Append a call to the log. -/
def World.record (w : World) (e : Event) : World := { w with log := w.log ++ [e] }

/-- `db.BeginTx`: opens a transaction on the committed rows. -/
def BeginTx (env : Env) (w : World) : Except Error Tx × World :=
  match env.beginTx with
  | some e => (.error e, w.record .begin)
  | none => (.ok { view := w.orders, done := false }, w.record .begin)

/-- `tx.Commit`: `ErrTxDone` on a finished transaction; otherwise the transaction is
finished and, unless the driver fails, its view becomes the committed rows. -/
def Tx.Commit (env : Env) (tx : Tx) (w : World) : Option Error × Tx × World :=
  if tx.done then (some .ErrTxDone, tx, w)
  else
    match env.commit with
    | some e => (some e, { tx with done := true }, w.record .commit)
    | none => (none, { tx with done := true }, { w.record .commit with orders := tx.view })

/-- `tx.Rollback`: `ErrTxDone` on a finished transaction; otherwise the transaction is
finished and its writes are dropped. -/
def Tx.Rollback (env : Env) (tx : Tx) (w : World) : Option Error × Tx × World :=
  if tx.done then (some .ErrTxDone, tx, w)
  else (env.rollback, { view := w.orders, done := true }, w.record .rollback)

/-- `tx.QueryRowContext(INSERT INTO orders (...) VALUES (...) RETURNING id).Scan(&id)`:
the new row takes the next value of the sequence, which is returned. -/
def Tx.QueryRowInsert (env : Env) (productID quantity userID : Int) (status : String)
    (createdAt updatedAt expiredAt : Time) (tx : Tx) (w : World) :
    Except Error Int × Tx × World :=
  if tx.done then (.error .ErrTxDone, tx, w)
  else
    match env.insert with
    | some e => (.error e, tx, w.record (.insert productID quantity userID status))
    | none =>
      let id := w.lastID + 1
      let row : Row :=
        { id := id, product_id := productID, quantity := quantity, user_id := userID,
          status := status, created_at := createdAt, updated_at := updatedAt,
          expired_at := expiredAt }
      (.ok id, { tx with view := tx.view ++ [row] },
        { w.record (.insert productID quantity userID status) with lastID := id })

/-- The effect of `UPDATE orders SET status = $1, updated_at = now() WHERE id = $2` on a
table. -/
def setStatusRows (status : String) (now : Time) (id : Int) (rows : List Row) : List Row :=
  rows.map fun r => if r.id = id then { r with status := status, updated_at := now } else r

/-- `tx.ExecContext(UPDATE orders SET status = $1, updated_at = now() WHERE id = $2)`. A
statement matching no row is not an error. -/
def Tx.ExecUpdate (env : Env) (status : String) (id : Int) (tx : Tx) (w : World) :
    Option Error × Tx × World :=
  if tx.done then (some .ErrTxDone, tx, w)
  else
    match env.update with
    | some e => (some e, tx, w.record (.update id status))
    | none =>
      (none, { tx with view := setStatusRows status env.sqlNow id tx.view },
        w.record (.update id status))

/-- `db.QueryRowContext(SELECT ... FROM orders WHERE id = $1).Scan(...)`, outside any
transaction: reads the committed rows; `ErrNoRows` when no row matches. -/
def QueryRowByID (env : Env) (id : Int) (w : World) : Except Error Row :=
  match env.query with
  | some e => .error e
  | none =>
    match w.orders.find? (fun r => decide (r.id = id)) with
    | none => .error .ErrNoRows
    | some r => .ok r

/-! ## `orderRepository` (`app/repository/db/order.go`) -/

/-- `orderRepository.CreateOrder`: inserts the order with both timestamps read from the
clock and scans the returned id into `order.ID`; the (possibly updated) order stands for
the pointer argument. -/
def orderRepository.CreateOrder (env : Env) (order : Order) (tx : Tx) (w : World) :
    Option Error × Order × Tx × World :=
  match tx.QueryRowInsert env order.ProductID order.Quantity order.UserID order.Status
      env.timeNow1 env.timeNow2 order.ExpiredAt w with
  | (.error e, tx1, w1) => (some e, order, tx1, w1)
  | (.ok id, tx1, w1) => (none, { order with ID := id }, tx1, w1)

/-- The `Scan` of `orderRepository.GetOrderByID`, column by column. -/
def scanOrder (r : Row) : Order :=
  { ID := r.id, ProductID := r.product_id, Quantity := r.quantity, UserID := r.user_id,
    Status := r.status, CreatedAt := r.created_at, UpdatedAt := r.updated_at,
    ExpiredAt := r.expired_at }

/-- `orderRepository.GetOrderByID`. -/
def orderRepository.GetOrderByID (env : Env) (id : Int) (w : World) : Order × Option Error :=
  match QueryRowByID env id w with
  | .error e =>
    if e = .ErrNoRows then (Order.empty, some .ErrNotFound)
    else (Order.empty, some e)
  | .ok r => (scanOrder r, none)

/-- `orderRepository.UpdateStatusOrder`: the result of `ExecContext` is discarded, only its
error is looked at. -/
def orderRepository.UpdateStatusOrder (env : Env) (id : Int) (status : String) (tx : Tx)
    (w : World) : Option Error × Tx × World :=
  match tx.ExecUpdate env status id w with
  | (some e, tx1, w1) => (some e, tx1, w1)
  | (none, tx1, w1) => (none, tx1, w1)

/-- The deferred function of `orderRepository.WithTransaction`; `err` is the variable
declared by `tx, err := r.db.BeginTx(ctx, nil)`. The error of `Rollback` is only logged. -/
def WithTransaction.deferred (env : Env) (err : Option Error) (tx : Tx) (w : World) : World :=
  match err with
  | some _ => (tx.Rollback env w).2.2
  | none => w

/-- `orderRepository.WithTransaction`. `σ` holds the variables captured by the closure
`fn`. The function has an unnamed result, and `if err := fn(ctx, tx); err != nil` and
`if err := tx.Commit(); err != nil` each declare an `err` of their own: the `err` of
`BeginTx`, which the deferred function reads, is `nil` on every path past the first
check. -/
def orderRepository.WithTransaction {σ : Type} (env : Env)
    (fn : Tx → σ → World → Option Error × σ × Tx × World) (s : σ) (w : World) :
    Option Error × σ × World :=
  match BeginTx env w with
  | (.error e, w1) => (some e, s, w1)
  | (.ok tx, w1) =>
    let err : Option Error := none
    match fn tx s w1 with
    | (some e, s2, tx2, w2) => (some e, s2, WithTransaction.deferred env err tx2 w2)
    | (none, s2, tx2, w2) =>
      match tx2.Commit env w2 with
      | (some e, tx3, w3) => (some e, s2, WithTransaction.deferred env err tx3 w3)
      | (none, tx3, w3) => (none, s2, WithTransaction.deferred env err tx3 w3)

/-! ## `orderUsecase` (`app/usecase/order.go`) -/

/-- The closure passed to `WithTransaction` by `orderUsecase.CreateOrder`; it captures the
variable `order`. -/
def CreateOrder.work (env : Env) (stock : StockRepository) (tx : Tx) (order : Order)
    (w : World) : Option Error × Order × Tx × World :=
  match orderRepository.CreateOrder env order tx w with
  | (some e, order1, tx1, w1) => (some e, order1, tx1, w1)
  | (none, order1, tx1, w1) =>
    let reservedStockReq : ReservedStockCreateRequest :=
      { ProductID := order1.ProductID, Quantity := order1.Quantity, OrderID := order1.ID }
    match stock.CreateReservedStock reservedStockReq with
    | some e => (some e, order1, tx1, w1.record (.reserve reservedStockReq))
    | none => (none, order1, tx1, w1.record (.reserve reservedStockReq))

/-- `orderUsecase.CreateOrder`. -/
def orderUsecase.CreateOrder (env : Env) (stock : StockRepository) (userID : Int)
    (req : OrderCreateRequest) (w : World) : (Order × Option Error) × World :=
  let order : Order :=
    { Order.empty with
      ProductID := req.ProductID, Quantity := req.Quantity, UserID := userID,
      Status := OrderStatusWaitingPayment }
  match orderRepository.WithTransaction env (CreateOrder.work env stock) order w with
  | (some e, _, w1) => ((Order.empty, some e), w1)
  | (none, order1, w1) => ((order1, none), w1)

/-- `orderUsecase.GetOrderByID`. -/
def orderUsecase.GetOrderByID (env : Env) (userID id : Int) (w : World) :
    Order × Option Error :=
  match orderRepository.GetOrderByID env id w with
  | (_, some e) => (Order.empty, some e)
  | (order, none) =>
    if order.UserID ≠ userID then (Order.empty, some .ErrUnauthorized)
    else (order, none)

/-- The closure passed to `WithTransaction` by `orderUsecase.UpdateStatusOrder`; it only
reads the captured `req` and `reservedStockReq`. -/
def UpdateStatusOrder.work (env : Env) (stock : StockRepository)
    (req : OrderUpdateStatusRequest) (reservedStockReq : ReservedStockUpdateRequest)
    (tx : Tx) (s : Unit) (w : World) : Option Error × Unit × Tx × World :=
  match orderRepository.UpdateStatusOrder env req.OrderID req.Status tx w with
  | (some e, tx1, w1) => (some e, s, tx1, w1)
  | (none, tx1, w1) =>
    match stock.UpdateReservedStockStatus req.OrderID reservedStockReq with
    | some e => (some e, s, tx1, w1.record (.setStatus req.OrderID reservedStockReq))
    | none => (none, s, tx1, w1.record (.setStatus req.OrderID reservedStockReq))

/-- `orderUsecase.UpdateStatusOrder`. -/
def orderUsecase.UpdateStatusOrder (env : Env) (stock : StockRepository)
    (req : OrderUpdateStatusRequest) (w : World) : Option Error × World :=
  let mapped : Option ReservedStockUpdateRequest :=
    if req.Status = OrderStatusCancelled then some { Status := "cancelled" }
    else if req.Status = OrderStatusPaid then some { Status := "completed" }
    else none
  match mapped with
  | none => (some .ErrBadRequest, w)
  | some reservedStockReq =>
    match orderRepository.WithTransaction env
        (UpdateStatusOrder.work env stock req reservedStockReq) () w with
    | (some e, _, w1) => (some e, w1)
    | (none, _, w1) => (none, w1)

/-! ## `OrderHandler.CreateOrder` (`app/handler/order.go`) -/

/-- What the handler reads from the `*fiber.Ctx`: the outcome of `c.BodyParser(&order)`
(`none`: the body does not parse) and of `ctxutil.GetUserIDCtx` (`none`: no identity). -/
structure Request where
  body : Option OrderCreateRequest
  userID : Option Int
  deriving DecidableEq, Repr

/-- The handler's answer: HTTP status and either the error or the order in the payload. -/
structure Response where
  status : Nat
  payload : Except Error Order

/-- `validator.Struct` on a `domain.OrderCreateRequest`: neither `ProductID` nor `Quantity`
carries a `validate` tag, so no rule is checked. -/
def validateOrderCreateRequest (_order : OrderCreateRequest) : Option Error := none

/-- `validator.Struct` on a `domain.OrderUpdateStatusRequest`: `Status` carries
`validate:"required,oneof=paid cancelled"`. -/
def validateOrderUpdateStatusRequest (req : OrderUpdateStatusRequest) : Option Error :=
  if req.Status = "" then some .ErrBadRequest
  else if req.Status = "paid" ∨ req.Status = "cancelled" then none
  else some .ErrBadRequest

/-- `OrderHandler.CreateOrder`; `fromError` is the status that `response.FromError` picks.
The second component is the request handed to the usecase, when the usecase is called. -/
def OrderHandler.CreateOrder (fromError : Error → Nat) (env : Env) (stock : StockRepository)
    (c : Request) (w : World) : Response × Option (Int × OrderCreateRequest) × World :=
  match c.body with
  | none => ({ status := 400, payload := .error .ErrBadRequest }, none, w)
  | some order =>
    match validateOrderCreateRequest order with
    | some _ => ({ status := 400, payload := .error .ErrBadRequest }, none, w)
    | none =>
      match c.userID with
      | none => ({ status := 401, payload := .error .ErrUnauthorized }, none, w)
      | some userID =>
        match orderUsecase.CreateOrder env stock userID order w with
        | ((_, some e), w1) =>
          ({ status := fromError e, payload := .error e }, some (userID, order), w1)
        | ((res, none), w1) =>
          ({ status := 201, payload := .ok res }, some (userID, order), w1)

/-! ## Sample data -/

/-- A stock service that accepts every call. -/
def stockOk : StockRepository :=
  { CreateReservedStock := fun _ => none, UpdateReservedStockStatus := fun _ _ => none }

/-- A stock service that fails every call with the same error. -/
def stockDown : StockRepository :=
  { CreateReservedStock := fun _ => some (.gateway 503),
    UpdateReservedStockStatus := fun _ _ => some (.gateway 503) }

/-- An empty store. -/
def World.init : World := { orders := [], lastID := 0, log := [] }

/-- Order 1 of user 7, waiting for payment. -/
def Row.sample : Row :=
  { id := 1, product_id := 42, quantity := 3, user_id := 7, status := "waiting_payment",
    created_at := 5, updated_at := 5, expired_at := 0 }

/-- A store holding order 1 only. -/
def World.one : World := { orders := [Row.sample], lastID := 1, log := [] }

/-- An environment whose insert fails with a driver error. -/
def Env.insertFails : Env := { Env.ok 5 6 9 with insert := some (.driver 23505) }

/-- An open transaction on the store holding order 1. -/
def Tx.sample : Tx := { view := World.one.orders, done := false }

/-- An environment whose status update fails with a driver error. -/
def Env.updateFails : Env := { Env.ok 5 6 9 with update := some (.driver 40001) }

/-- A store holding order 1 of user 7, already paid, and order 2 of user 8. -/
def World.two : World :=
  { orders := [{ Row.sample with status := "paid", updated_at := 8 },
               { id := 2, product_id := 11, quantity := 1, user_id := 8,
                 status := "waiting_payment", created_at := 7, updated_at := 7,
                 expired_at := 0 }],
    lastID := 2, log := [] }

/-! ## Lemmas on the store and on the transaction scope -/


theorem BeginTx_ok (env : Env) (w : World) (hb : env.beginTx = none) :
    BeginTx env w = (.ok { view := w.orders, done := false }, w.record .begin) := by
  simp [BeginTx, hb]

/-- When the work fails, `WithTransaction` returns its error and leaves the world exactly
as the work left it: no call is issued on the transaction after the work returns. -/
theorem WithTransaction_work_error {σ : Type} (env : Env)
    (fn : Tx → σ → World → Option Error × σ × Tx × World) (s s2 : σ) (w w2 : World)
    (tx2 : Tx) (e : Error) (hb : env.beginTx = none)
    (hfn : fn { view := w.orders, done := false } s (w.record .begin) = (some e, s2, tx2, w2)) :
    orderRepository.WithTransaction env fn s w = (some e, s2, w2) := by
  simp [orderRepository.WithTransaction, BeginTx_ok env w hb, hfn, WithTransaction.deferred]

/-- When the work succeeds on an open transaction and the commit succeeds, the view of the
transaction becomes the committed rows. -/
theorem WithTransaction_work_ok {σ : Type} (env : Env)
    (fn : Tx → σ → World → Option Error × σ × Tx × World) (s s2 : σ) (w w2 : World)
    (tx2 : Tx) (hb : env.beginTx = none) (hc : env.commit = none)
    (hfn : fn { view := w.orders, done := false } s (w.record .begin) = (none, s2, tx2, w2))
    (hopen : tx2.done = false) :
    orderRepository.WithTransaction env fn s w
      = (none, s2, { w2.record .commit with orders := tx2.view }) := by
  simp [orderRepository.WithTransaction, BeginTx_ok env w hb, hfn, WithTransaction.deferred,
    Tx.Commit, hopen, hc]

theorem CreateOrder_work_insert_error (env : Env) (stock : StockRepository) (order : Order)
    (w : World) (rows : List Row) (e : Error) (hi : env.insert = some e) :
    CreateOrder.work env stock { view := rows, done := false } order w
      = (some e, order, { view := rows, done := false },
          w.record (.insert order.ProductID order.Quantity order.UserID order.Status)) := by
  simp [CreateOrder.work, orderRepository.CreateOrder, Tx.QueryRowInsert, hi]

theorem CreateOrder_work_inserted (env : Env) (stock : StockRepository) (order : Order)
    (w : World) (rows : List Row) (hi : env.insert = none) :
    CreateOrder.work env stock { view := rows, done := false } order w
      = (stock.CreateReservedStock
            { ProductID := order.ProductID, Quantity := order.Quantity, OrderID := w.lastID + 1 },
          { order with ID := w.lastID + 1 },
          { view := rows ++ [{ id := w.lastID + 1, product_id := order.ProductID,
                               quantity := order.Quantity, user_id := order.UserID,
                               status := order.Status, created_at := env.timeNow1,
                               updated_at := env.timeNow2, expired_at := order.ExpiredAt }],
            done := false },
          { (w.record (.insert order.ProductID order.Quantity order.UserID order.Status)).record
              (.reserve { ProductID := order.ProductID, Quantity := order.Quantity,
                          OrderID := w.lastID + 1 }) with lastID := w.lastID + 1 }) := by
  simp only [CreateOrder.work, orderRepository.CreateOrder, Tx.QueryRowInsert, hi]
  cases h : stock.CreateReservedStock
      { ProductID := order.ProductID, Quantity := order.Quantity, OrderID := w.lastID + 1 } <;>
    simp [h, World.record]

/-- The committed outcome of `orderUsecase.CreateOrder` when the insert has succeeded and
the reservation call has failed. -/
theorem CreateOrder_gateway_error (env : Env) (stock : StockRepository) (userID : Int)
    (req : OrderCreateRequest) (w : World) (e : Error)
    (hb : env.beginTx = none) (hi : env.insert = none)
    (hg : stock.CreateReservedStock
        { ProductID := req.ProductID, Quantity := req.Quantity, OrderID := w.lastID + 1 }
        = some e) :
    orderUsecase.CreateOrder env stock userID req w
      = ((Order.empty, some e),
          { orders := w.orders, lastID := w.lastID + 1,
            log := w.log ++ [.begin,
              .insert req.ProductID req.Quantity userID OrderStatusWaitingPayment,
              .reserve { ProductID := req.ProductID, Quantity := req.Quantity,
                         OrderID := w.lastID + 1 }] }) := by
  unfold orderUsecase.CreateOrder
  have hw := CreateOrder_work_inserted env stock
    { Order.empty with ProductID := req.ProductID, Quantity := req.Quantity, UserID := userID,
                       Status := OrderStatusWaitingPayment } (w.record .begin) w.orders hi
  simp only [World.record] at hw hg ⊢
  rw [hg] at hw
  have := WithTransaction_work_error env (CreateOrder.work env stock) _ _ w _ _ e hb hw
  simp [this, World.record]

theorem CreateOrder_success (env : Env) (stock : StockRepository) (userID : Int)
    (req : OrderCreateRequest) (w : World)
    (hb : env.beginTx = none) (hi : env.insert = none) (hc : env.commit = none)
    (hg : stock.CreateReservedStock
        { ProductID := req.ProductID, Quantity := req.Quantity, OrderID := w.lastID + 1 }
        = none) :
    orderUsecase.CreateOrder env stock userID req w
      = (({ ID := w.lastID + 1, ProductID := req.ProductID, Quantity := req.Quantity,
            UserID := userID, Status := OrderStatusWaitingPayment, CreatedAt := 0,
            UpdatedAt := 0, ExpiredAt := 0 }, none),
          { orders := w.orders ++ [{ id := w.lastID + 1, product_id := req.ProductID,
                                     quantity := req.Quantity, user_id := userID,
                                     status := OrderStatusWaitingPayment,
                                     created_at := env.timeNow1, updated_at := env.timeNow2,
                                     expired_at := 0 }],
            lastID := w.lastID + 1,
            log := w.log ++ [.begin,
              .insert req.ProductID req.Quantity userID OrderStatusWaitingPayment,
              .reserve { ProductID := req.ProductID, Quantity := req.Quantity,
                         OrderID := w.lastID + 1 },
              .commit] }) := by
  unfold orderUsecase.CreateOrder
  have hw := CreateOrder_work_inserted env stock
    { Order.empty with ProductID := req.ProductID, Quantity := req.Quantity, UserID := userID,
                       Status := OrderStatusWaitingPayment } (w.record .begin) w.orders hi
  simp only [World.record] at hw hg ⊢
  rw [hg] at hw
  have := WithTransaction_work_ok env (CreateOrder.work env stock) _ _ w _ _ hb hc hw rfl
  simp only [Order.empty] at this
  simp [Order.empty, this, World.record]

theorem CreateOrder_insert_error (env : Env) (stock : StockRepository) (userID : Int)
    (req : OrderCreateRequest) (w : World) (e : Error)
    (hb : env.beginTx = none) (hi : env.insert = some e) :
    orderUsecase.CreateOrder env stock userID req w
      = ((Order.empty, some e),
          { orders := w.orders, lastID := w.lastID,
            log := w.log ++ [.begin,
              .insert req.ProductID req.Quantity userID OrderStatusWaitingPayment] }) := by
  unfold orderUsecase.CreateOrder
  have hw := CreateOrder_work_insert_error env stock
    { Order.empty with ProductID := req.ProductID, Quantity := req.Quantity, UserID := userID,
                       Status := OrderStatusWaitingPayment } (w.record .begin) w.orders e hi
  have := WithTransaction_work_error env (CreateOrder.work env stock) _ _ w _ _ e hb hw
  simp [this, World.record]

/-- In a well-formed store the next id of the sequence is not in use. -/
theorem find_none_of_WF (w : World) (hwf : w.WF) :
    w.orders.find? (fun r => decide (r.id = w.lastID + 1)) = none := by
  rw [List.find?_eq_none]
  intro r hr
  have := hwf r hr
  simp
  omega

theorem GetOrderByID_absent (env : Env) (userID id : Int) (w : World)
    (hq : env.query = none)
    (hfind : w.orders.find? (fun r => decide (r.id = id)) = none) :
    orderUsecase.GetOrderByID env userID id w = (Order.empty, some .ErrNotFound) := by
  simp [orderUsecase.GetOrderByID, orderRepository.GetOrderByID, QueryRowByID, hq, hfind]

theorem GetOrderByID_present (env : Env) (userID id : Int) (w : World) (r : Row)
    (hq : env.query = none)
    (hfind : w.orders.find? (fun r => decide (r.id = id)) = some r) :
    orderUsecase.GetOrderByID env userID id w
      = if r.user_id = userID then (scanOrder r, none)
        else (Order.empty, some .ErrUnauthorized) := by
  simp [orderUsecase.GetOrderByID, orderRepository.GetOrderByID, QueryRowByID, hq, hfind,
    scanOrder]

theorem WithTransaction_begin_error {σ : Type} (env : Env)
    (fn : Tx → σ → World → Option Error × σ × Tx × World) (s : σ) (w : World) (e : Error)
    (hb : env.beginTx = some e) :
    orderRepository.WithTransaction env fn s w = (some e, s, w.record .begin) := by
  simp [orderRepository.WithTransaction, BeginTx, hb]

theorem WithTransaction_commit_error {σ : Type} (env : Env)
    (fn : Tx → σ → World → Option Error × σ × Tx × World) (s s2 : σ) (w w2 : World)
    (tx2 : Tx) (e : Error) (hb : env.beginTx = none) (hc : env.commit = some e)
    (hfn : fn { view := w.orders, done := false } s (w.record .begin) = (none, s2, tx2, w2))
    (hopen : tx2.done = false) :
    orderRepository.WithTransaction env fn s w = (some e, s2, w2.record .commit) := by
  simp [orderRepository.WithTransaction, BeginTx_ok env w hb, hfn, WithTransaction.deferred,
    Tx.Commit, hopen, hc]

/-- A successful `orderUsecase.CreateOrder` has seen every store call and the reservation
call succeed. -/
theorem CreateOrder_ok_inv (env : Env) (stock : StockRepository) (userID : Int)
    (req : OrderCreateRequest) (w : World)
    (hok : (orderUsecase.CreateOrder env stock userID req w).1.2 = none) :
    env.beginTx = none ∧ env.insert = none ∧ env.commit = none ∧
      stock.CreateReservedStock
        { ProductID := req.ProductID, Quantity := req.Quantity, OrderID := w.lastID + 1 }
        = none := by
  cases hb : env.beginTx with
  | some e =>
    have := WithTransaction_begin_error env (CreateOrder.work env stock)
      { Order.empty with ProductID := req.ProductID, Quantity := req.Quantity,
                         UserID := userID, Status := OrderStatusWaitingPayment } w e hb
    simp [orderUsecase.CreateOrder, this] at hok
  | none =>
    cases hi : env.insert with
    | some e =>
      rw [CreateOrder_insert_error env stock userID req w e hb hi] at hok
      simp at hok
    | none =>
      cases hg : stock.CreateReservedStock
          { ProductID := req.ProductID, Quantity := req.Quantity, OrderID := w.lastID + 1 } with
      | some e =>
        rw [CreateOrder_gateway_error env stock userID req w e hb hi hg] at hok
        simp at hok
      | none =>
        cases hc : env.commit with
        | none => exact ⟨rfl, rfl, rfl, rfl⟩
        | some e =>
          have hw := CreateOrder_work_inserted env stock
            { Order.empty with ProductID := req.ProductID, Quantity := req.Quantity,
                               UserID := userID, Status := OrderStatusWaitingPayment }
            (w.record .begin) w.orders hi
          simp only [World.record] at hw hg
          rw [hg] at hw
          have := WithTransaction_commit_error env (CreateOrder.work env stock) _ _ w _ _ e
            hb hc hw rfl
          simp [orderUsecase.CreateOrder, this] at hok

theorem find_new_of_WF (w : World) (hwf : w.WF) (row : Row) (hid : row.id = w.lastID + 1) :
    (w.orders ++ [row]).find? (fun r => decide (r.id = w.lastID + 1)) = some row := by
  simp [List.find?_append, find_none_of_WF w hwf, List.find?, hid]

theorem mem_setStatusRows (status : String) (now : Time) (id : Int) (rows : List Row)
    (r : Row) (hr : r ∈ rows) (hid : r.id = id) :
    { r with status := status, updated_at := now } ∈ setStatusRows status now id rows := by
  unfold setStatusRows
  exact List.mem_map.mpr ⟨r, hr, by simp [hid]⟩

theorem setStatusRows_absent (status : String) (now : Time) (id : Int) (rows : List Row)
    (habs : ∀ r ∈ rows, r.id ≠ id) : setStatusRows status now id rows = rows := by
  unfold setStatusRows
  conv_rhs => rw [← List.map_id rows]
  apply List.map_congr_left
  intro r hr
  simp [habs r hr]

theorem UpdateStatusOrder_work_updated (env : Env) (stock : StockRepository)
    (req : OrderUpdateStatusRequest) (rs : ReservedStockUpdateRequest) (rows : List Row)
    (w : World) (hu : env.update = none) :
    UpdateStatusOrder.work env stock req rs { view := rows, done := false } () w
      = (stock.UpdateReservedStockStatus req.OrderID rs, (),
          { view := setStatusRows req.Status env.sqlNow req.OrderID rows, done := false },
          (w.record (.update req.OrderID req.Status)).record (.setStatus req.OrderID rs)) := by
  simp only [UpdateStatusOrder.work, orderRepository.UpdateStatusOrder, Tx.ExecUpdate, hu]
  cases h : stock.UpdateReservedStockStatus req.OrderID rs <;> simp [h]

/-- The outcome of `orderUsecase.UpdateStatusOrder` for one of the two accepted statuses
when every store call and the remote call succeed. -/
theorem UpdateStatusOrder_success (env : Env) (stock : StockRepository) (id : Int)
    (status rstatus : String) (w : World)
    (hs : (status = "cancelled" ∧ rstatus = "cancelled") ∨
          (status = "paid" ∧ rstatus = "completed"))
    (hb : env.beginTx = none) (hu : env.update = none) (hc : env.commit = none)
    (hg : stock.UpdateReservedStockStatus id { Status := rstatus } = none) :
    orderUsecase.UpdateStatusOrder env stock { OrderID := id, Status := status } w
      = (none,
          { orders := setStatusRows status env.sqlNow id w.orders, lastID := w.lastID,
            log := w.log ++ [.begin, .update id status,
              .setStatus id { Status := rstatus }, .commit] }) := by
  have hw := UpdateStatusOrder_work_updated env stock { OrderID := id, Status := status }
    { Status := rstatus } w.orders (w.record .begin) hu
  simp only [hg] at hw
  have := WithTransaction_work_ok env
    (UpdateStatusOrder.work env stock { OrderID := id, Status := status }
      { Status := rstatus }) () () w _ _ hb hc hw rfl
  rcases hs with ⟨h1, h2⟩ | ⟨h1, h2⟩ <;> subst h1 <;> subst h2 <;>
    simp [orderUsecase.UpdateStatusOrder, OrderStatusCancelled, OrderStatusPaid, this,
      World.record]

theorem GetOrderByID_after_insert (env : Env) (userID : Int) (w : World) (row : Row)
    (lastID : Int) (log : List Event) (hwf : w.WF) (hq : env.query = none)
    (hid : row.id = w.lastID + 1) (huser : row.user_id = userID) :
    orderUsecase.GetOrderByID env userID (w.lastID + 1)
        { orders := w.orders ++ [row], lastID := lastID, log := log }
      = (scanOrder row, none) := by
  have hf := find_new_of_WF w hwf row hid
  rw [GetOrderByID_present env userID (w.lastID + 1) _ row hq hf, if_pos huser]

theorem CreateOrder_commit_error (env : Env) (stock : StockRepository) (userID : Int)
    (req : OrderCreateRequest) (w : World) (e : Error)
    (hb : env.beginTx = none) (hi : env.insert = none) (hc : env.commit = some e)
    (hg : stock.CreateReservedStock
        { ProductID := req.ProductID, Quantity := req.Quantity, OrderID := w.lastID + 1 }
        = none) :
    orderUsecase.CreateOrder env stock userID req w
      = ((Order.empty, some e),
          { orders := w.orders, lastID := w.lastID + 1,
            log := w.log ++ [.begin,
              .insert req.ProductID req.Quantity userID OrderStatusWaitingPayment,
              .reserve { ProductID := req.ProductID, Quantity := req.Quantity,
                         OrderID := w.lastID + 1 },
              .commit] }) := by
  unfold orderUsecase.CreateOrder
  have hw := CreateOrder_work_inserted env stock
    { Order.empty with ProductID := req.ProductID, Quantity := req.Quantity, UserID := userID,
                       Status := OrderStatusWaitingPayment } (w.record .begin) w.orders hi
  simp only [World.record] at hw hg ⊢
  rw [hg] at hw
  have := WithTransaction_commit_error env (CreateOrder.work env stock) _ _ w _ _ e hb hc hw rfl
  simp [this, World.record]

theorem CreateOrder_begin_error (env : Env) (stock : StockRepository) (userID : Int)
    (req : OrderCreateRequest) (w : World) (e : Error) (hb : env.beginTx = some e) :
    orderUsecase.CreateOrder env stock userID req w
      = ((Order.empty, some e), w.record .begin) := by
  have := WithTransaction_begin_error env (CreateOrder.work env stock)
    { Order.empty with ProductID := req.ProductID, Quantity := req.Quantity,
                       UserID := userID, Status := OrderStatusWaitingPayment } w e hb
  simp [orderUsecase.CreateOrder, this]

/-- The well-formedness of the store is an invariant of `orderUsecase.CreateOrder`. -/
theorem CreateOrder_preserves_WF (env : Env) (stock : StockRepository) (userID : Int)
    (req : OrderCreateRequest) (w : World) (hwf : w.WF) :
    (orderUsecase.CreateOrder env stock userID req w).2.WF := by
  have hstep : ∀ r ∈ w.orders, r.id ≤ w.lastID + 1 := fun r hr => by
    have := hwf r hr
    omega
  cases hb : env.beginTx with
  | some e =>
    rw [CreateOrder_begin_error env stock userID req w e hb]
    exact hwf
  | none =>
    cases hi : env.insert with
    | some e =>
      rw [CreateOrder_insert_error env stock userID req w e hb hi]
      exact hwf
    | none =>
      cases hg : stock.CreateReservedStock
          { ProductID := req.ProductID, Quantity := req.Quantity, OrderID := w.lastID + 1 } with
      | some e =>
        rw [CreateOrder_gateway_error env stock userID req w e hb hi hg]
        exact hstep
      | none =>
        cases hc : env.commit with
        | some e =>
          rw [CreateOrder_commit_error env stock userID req w e hb hi hc hg]
          exact hstep
        | none =>
          rw [CreateOrder_success env stock userID req w hb hi hc hg]
          intro r hr
          simp only [List.mem_append, List.mem_singleton] at hr
          rcases hr with hr | hr
          · exact hstep r hr
          · simp [hr]

theorem validateOrderCreateRequest_accepts (order : OrderCreateRequest) :
    validateOrderCreateRequest order = none := rfl

theorem validateOrderUpdateStatusRequest_ok (req : OrderUpdateStatusRequest) :
    validateOrderUpdateStatusRequest req = none ↔
      req.Status = "paid" ∨ req.Status = "cancelled" := by
  unfold validateOrderUpdateStatusRequest
  constructor
  · intro h
    by_contra hn
    by_cases he : req.Status = "" <;> simp [he, hn] at h
  · intro h
    rcases h with h | h <;> simp [h]

/-- The handler hands the parsed body to the usecase as it is, whatever its quantity. -/
theorem OrderHandler_CreateOrder_forwards (fromError : Error → Nat) (env : Env)
    (stock : StockRepository) (order : OrderCreateRequest) (userID : Int) (w : World) :
    (OrderHandler.CreateOrder fromError env stock
        { body := some order, userID := some userID } w).2.1 = some (userID, order) := by
  simp only [OrderHandler.CreateOrder, validateOrderCreateRequest]
  rcases h : orderUsecase.CreateOrder env stock userID order w with ⟨⟨o, _ | e⟩, w1⟩ <;> simp

theorem UpdateStatusOrder_work_update_error (env : Env) (stock : StockRepository)
    (req : OrderUpdateStatusRequest) (rs : ReservedStockUpdateRequest) (rows : List Row)
    (w : World) (e : Error) (hu : env.update = some e) :
    UpdateStatusOrder.work env stock req rs { view := rows, done := false } () w
      = (some e, (), { view := rows, done := false },
          w.record (.update req.OrderID req.Status)) := by
  simp [UpdateStatusOrder.work, orderRepository.UpdateStatusOrder, Tx.ExecUpdate, hu]

/-- The outcome of `orderUsecase.UpdateStatusOrder` when the status write has succeeded
and the remote call has failed: nothing is committed. -/
theorem UpdateStatusOrder_gateway_error (env : Env) (stock : StockRepository) (id : Int)
    (status rstatus : String) (w : World) (e : Error)
    (hs : (status = "cancelled" ∧ rstatus = "cancelled") ∨
          (status = "paid" ∧ rstatus = "completed"))
    (hb : env.beginTx = none) (hu : env.update = none)
    (hg : stock.UpdateReservedStockStatus id { Status := rstatus } = some e) :
    orderUsecase.UpdateStatusOrder env stock { OrderID := id, Status := status } w
      = (some e,
          { orders := w.orders, lastID := w.lastID,
            log := w.log ++ [.begin, .update id status,
              .setStatus id { Status := rstatus }] }) := by
  have hw := UpdateStatusOrder_work_updated env stock { OrderID := id, Status := status }
    { Status := rstatus } w.orders (w.record .begin) hu
  simp only [hg] at hw
  have := WithTransaction_work_error env
    (UpdateStatusOrder.work env stock { OrderID := id, Status := status }
      { Status := rstatus }) () () w _ _ e hb hw
  rcases hs with ⟨h1, h2⟩ | ⟨h1, h2⟩ <;> subst h1 <;> subst h2 <;>
    simp [orderUsecase.UpdateStatusOrder, OrderStatusCancelled, OrderStatusPaid, this,
      World.record]

/-- The outcome of `orderUsecase.UpdateStatusOrder` when the status write fails. -/
theorem UpdateStatusOrder_update_error (env : Env) (stock : StockRepository) (id : Int)
    (status : String) (w : World) (e : Error)
    (hs : status = "cancelled" ∨ status = "paid")
    (hb : env.beginTx = none) (hu : env.update = some e) :
    orderUsecase.UpdateStatusOrder env stock { OrderID := id, Status := status } w
      = (some e,
          { orders := w.orders, lastID := w.lastID,
            log := w.log ++ [.begin, .update id status] }) := by
  rcases hs with h1 | h1 <;> subst h1
  · have hw := UpdateStatusOrder_work_update_error env stock
      { OrderID := id, Status := "cancelled" } { Status := "cancelled" } w.orders
      (w.record .begin) e hu
    have := WithTransaction_work_error env
      (UpdateStatusOrder.work env stock { OrderID := id, Status := "cancelled" }
        { Status := "cancelled" }) () () w _ _ e hb hw
    simp [orderUsecase.UpdateStatusOrder, OrderStatusCancelled, OrderStatusPaid, this,
      World.record]
  · have hw := UpdateStatusOrder_work_update_error env stock
      { OrderID := id, Status := "paid" } { Status := "completed" } w.orders
      (w.record .begin) e hu
    have := WithTransaction_work_error env
      (UpdateStatusOrder.work env stock { OrderID := id, Status := "paid" }
        { Status := "completed" }) () () w _ _ e hb hw
    simp [orderUsecase.UpdateStatusOrder, OrderStatusCancelled, OrderStatusPaid, this,
      World.record]

/-- `orderUsecase.GetOrderByID` reads nothing but the committed rows. -/
theorem GetOrderByID_congr (env : Env) (userID id : Int) (w1 w2 : World)
    (h : w1.orders = w2.orders) :
    orderUsecase.GetOrderByID env userID id w1 = orderUsecase.GetOrderByID env userID id w2 := by
  simp [orderUsecase.GetOrderByID, orderRepository.GetOrderByID, QueryRowByID, h]

/-- Looking a row up by id after the status update: the row found before, updated when
its id is the one of the statement. -/
theorem find_setStatusRows (status : String) (now : Time) (id j : Int) (rows : List Row) :
    (setStatusRows status now id rows).find? (fun r => decide (r.id = j))
      = (rows.find? (fun r => decide (r.id = j))).map
          (fun r => if r.id = id then { r with status := status, updated_at := now } else r) := by
  unfold setStatusRows
  rw [List.find?_map]
  congr 2
  funext r
  by_cases h : r.id = id <;> simp [Function.comp, h]

theorem find_setStatusRows_same (status : String) (now : Time) (id : Int) (rows : List Row) :
    (setStatusRows status now id rows).find? (fun r => decide (r.id = id))
      = (rows.find? (fun r => decide (r.id = id))).map
          (fun r => { r with status := status, updated_at := now }) := by
  rw [find_setStatusRows]
  cases hf : rows.find? (fun r => decide (r.id = id)) with
  | none => rfl
  | some r =>
    have hid : r.id = id := by simpa using List.find?_some hf
    simp [hid]

theorem find_setStatusRows_other (status : String) (now : Time) (id j : Int)
    (rows : List Row) (hj : j ≠ id) :
    (setStatusRows status now id rows).find? (fun r => decide (r.id = j))
      = rows.find? (fun r => decide (r.id = j)) := by
  rw [find_setStatusRows]
  cases hf : rows.find? (fun r => decide (r.id = j)) with
  | none => rfl
  | some r =>
    have hid : r.id = j := by simpa using List.find?_some hf
    simp [hid, hj]

/-- `orderUsecase.GetOrderByID` depends on the store only through the lookup of the id. -/
theorem GetOrderByID_of_find_eq (env : Env) (userID id : Int) (w1 w2 : World)
    (h : w1.orders.find? (fun r => decide (r.id = id))
          = w2.orders.find? (fun r => decide (r.id = id))) :
    orderUsecase.GetOrderByID env userID id w1 = orderUsecase.GetOrderByID env userID id w2 := by
  simp [orderUsecase.GetOrderByID, orderRepository.GetOrderByID, QueryRowByID, h]

/-! ## Properties of the specification, against the code -/

/-- C1, the code at a failing work: `WithTransaction` run on the closure of
`orderUsecase.CreateOrder` with a stock service that is down returns the error of the remote
call, and the calls issued are `begin`, the insert and the reservation only: neither a
rollback nor a commit is issued on the transaction, which stays open. -/
theorem C1_WithTransaction_work_error_issues_no_rollback :
    orderRepository.WithTransaction (Env.ok 5 6 9) (CreateOrder.work (Env.ok 5 6 9) stockDown)
        { Order.empty with ProductID := 42, Quantity := 3, UserID := 7,
                           Status := OrderStatusWaitingPayment } World.init
      = (some (.gateway 503),
          { Order.empty with ID := 1, ProductID := 42, Quantity := 3, UserID := 7,
                             Status := OrderStatusWaitingPayment },
          { orders := [], lastID := 1,
            log := [.begin, .insert 42 3 7 "waiting_payment",
                    .reserve { ProductID := 42, Quantity := 3, OrderID := 1 }] })
    ∧ Event.rollback ∉
        (orderRepository.WithTransaction (Env.ok 5 6 9)
          (CreateOrder.work (Env.ok 5 6 9) stockDown)
          { Order.empty with ProductID := 42, Quantity := 3, UserID := 7,
                             Status := OrderStatusWaitingPayment } World.init).2.2.log := by
  decide

/-- C2: when the insert of `CreateOrder` succeeds and the reservation call fails with `e`,
the call returns `e`, the committed rows are those from before the call (the reservation
was issued for the id the insert assigned, `lastID + 1`), and `GetOrderByID` on that id
fails with `ErrNotFound` for every requesting user. -/
theorem C2_CreateOrder_gateway_failure_order_not_visible (env env2 : Env)
    (stock : StockRepository) (userID : Int) (req : OrderCreateRequest) (w : World)
    (e : Error) (hwf : w.WF) (hb : env.beginTx = none) (hi : env.insert = none)
    (hg : stock.CreateReservedStock
        { ProductID := req.ProductID, Quantity := req.Quantity, OrderID := w.lastID + 1 }
        = some e)
    (hq : env2.query = none) :
    (orderUsecase.CreateOrder env stock userID req w).1 = (Order.empty, some e) ∧
    (orderUsecase.CreateOrder env stock userID req w).2.orders = w.orders ∧
    (orderUsecase.CreateOrder env stock userID req w).2.log
      = w.log ++ [.begin, .insert req.ProductID req.Quantity userID OrderStatusWaitingPayment,
          .reserve { ProductID := req.ProductID, Quantity := req.Quantity,
                     OrderID := w.lastID + 1 }] ∧
    ∀ u : Int,
      orderUsecase.GetOrderByID env2 u (w.lastID + 1)
          (orderUsecase.CreateOrder env stock userID req w).2
        = (Order.empty, some .ErrNotFound) := by
  rw [CreateOrder_gateway_error env stock userID req w e hb hi hg]
  refine ⟨rfl, rfl, rfl, fun u => ?_⟩
  exact GetOrderByID_absent env2 u _ _ hq (find_none_of_WF w hwf)

/-- C2 at the store holding order 1, with the stock service down. -/
theorem C2_CreateOrder_gateway_failure_order_not_visible_witness :
    (orderUsecase.CreateOrder (Env.ok 5 6 9) stockDown 7 ⟨42, 3⟩ World.one).1
      = (Order.empty, some (.gateway 503)) ∧
    (orderUsecase.CreateOrder (Env.ok 5 6 9) stockDown 7 ⟨42, 3⟩ World.one).2.orders
      = World.one.orders ∧
    (orderUsecase.CreateOrder (Env.ok 5 6 9) stockDown 7 ⟨42, 3⟩ World.one).2.log
      = World.one.log ++ [.begin, .insert 42 3 7 OrderStatusWaitingPayment,
          .reserve { ProductID := 42, Quantity := 3, OrderID := World.one.lastID + 1 }] ∧
    ∀ u : Int,
      orderUsecase.GetOrderByID (Env.ok 1 1 1) u (World.one.lastID + 1)
          (orderUsecase.CreateOrder (Env.ok 5 6 9) stockDown 7 ⟨42, 3⟩ World.one).2
        = (Order.empty, some .ErrNotFound) :=
  C2_CreateOrder_gateway_failure_order_not_visible (Env.ok 5 6 9) (Env.ok 1 1 1) stockDown 7
    ⟨42, 3⟩ World.one (.gateway 503) (by decide) rfl rfl rfl rfl

/-- C3: when the transaction begins, the insert, the reservation call and the commit all
succeed, `CreateOrder` returns without error the order with the id assigned by the insert,
the product, quantity and user of the request and status `waiting_payment`; the row with
that id and those attributes is committed; and the calls issued are, in this order,
`begin`, the insert, one reservation call carrying the product, quantity and id of the
returned order, and `commit`. The quantity need not be positive for this. -/
theorem C3_CreateOrder_success (env : Env) (stock : StockRepository) (userID : Int)
    (req : OrderCreateRequest) (w : World)
    (hb : env.beginTx = none) (hi : env.insert = none) (hc : env.commit = none)
    (hg : stock.CreateReservedStock
        { ProductID := req.ProductID, Quantity := req.Quantity, OrderID := w.lastID + 1 }
        = none) :
    (orderUsecase.CreateOrder env stock userID req w).1.2 = none ∧
    (orderUsecase.CreateOrder env stock userID req w).1.1.Status = "waiting_payment" ∧
    (orderUsecase.CreateOrder env stock userID req w).1.1.ID = w.lastID + 1 ∧
    (orderUsecase.CreateOrder env stock userID req w).1.1.ProductID = req.ProductID ∧
    (orderUsecase.CreateOrder env stock userID req w).1.1.Quantity = req.Quantity ∧
    (orderUsecase.CreateOrder env stock userID req w).1.1.UserID = userID ∧
    (orderUsecase.CreateOrder env stock userID req w).2.orders
      = w.orders ++ [{ id := w.lastID + 1, product_id := req.ProductID,
                       quantity := req.Quantity, user_id := userID,
                       status := "waiting_payment", created_at := env.timeNow1,
                       updated_at := env.timeNow2, expired_at := 0 }] ∧
    (orderUsecase.CreateOrder env stock userID req w).2.log
      = w.log ++ [.begin, .insert req.ProductID req.Quantity userID "waiting_payment",
          .reserve
            { ProductID := (orderUsecase.CreateOrder env stock userID req w).1.1.ProductID,
              Quantity := (orderUsecase.CreateOrder env stock userID req w).1.1.Quantity,
              OrderID := (orderUsecase.CreateOrder env stock userID req w).1.1.ID },
          .commit] := by
  rw [CreateOrder_success env stock userID req w hb hi hc hg]
  simp [OrderStatusWaitingPayment]

/-- C3 at the empty store: product 42, quantity 3, user 7. -/
theorem C3_CreateOrder_success_witness :
    (orderUsecase.CreateOrder (Env.ok 5 6 9) stockOk 7 ⟨42, 3⟩ World.init).1.2 = none ∧
    (orderUsecase.CreateOrder (Env.ok 5 6 9) stockOk 7 ⟨42, 3⟩ World.init).1.1.Status
      = "waiting_payment" ∧
    (orderUsecase.CreateOrder (Env.ok 5 6 9) stockOk 7 ⟨42, 3⟩ World.init).1.1.ID
      = World.init.lastID + 1 ∧
    (orderUsecase.CreateOrder (Env.ok 5 6 9) stockOk 7 ⟨42, 3⟩ World.init).1.1.ProductID
      = 42 ∧
    (orderUsecase.CreateOrder (Env.ok 5 6 9) stockOk 7 ⟨42, 3⟩ World.init).1.1.Quantity = 3 ∧
    (orderUsecase.CreateOrder (Env.ok 5 6 9) stockOk 7 ⟨42, 3⟩ World.init).1.1.UserID = 7 ∧
    (orderUsecase.CreateOrder (Env.ok 5 6 9) stockOk 7 ⟨42, 3⟩ World.init).2.orders
      = World.init.orders ++ [{ id := World.init.lastID + 1, product_id := 42,
                                quantity := 3, user_id := 7, status := "waiting_payment",
                                created_at := 5, updated_at := 6, expired_at := 0 }] ∧
    (orderUsecase.CreateOrder (Env.ok 5 6 9) stockOk 7 ⟨42, 3⟩ World.init).2.log
      = World.init.log ++ [.begin, .insert 42 3 7 "waiting_payment",
          .reserve
            { ProductID :=
                (orderUsecase.CreateOrder (Env.ok 5 6 9) stockOk 7 ⟨42, 3⟩
                  World.init).1.1.ProductID,
              Quantity :=
                (orderUsecase.CreateOrder (Env.ok 5 6 9) stockOk 7 ⟨42, 3⟩
                  World.init).1.1.Quantity,
              OrderID :=
                (orderUsecase.CreateOrder (Env.ok 5 6 9) stockOk 7 ⟨42, 3⟩
                  World.init).1.1.ID },
          .commit] :=
  C3_CreateOrder_success (Env.ok 5 6 9) stockOk 7 ⟨42, 3⟩ World.init rfl rfl rfl rfl

/-- C4: for every order id and every requested status other than `paid` and `cancelled`,
`UpdateStatusOrder` returns `ErrBadRequest` and leaves the world as it was: same committed
rows, same sequence, and no call issued (no `begin`, no write, no remote call). -/
theorem C4_UpdateStatusOrder_invalid_status (env : Env) (stock : StockRepository)
    (id : Int) (status : String) (w : World)
    (hp : status ≠ "paid") (hcn : status ≠ "cancelled") :
    orderUsecase.UpdateStatusOrder env stock { OrderID := id, Status := status } w
      = (some .ErrBadRequest, w) := by
  simp [orderUsecase.UpdateStatusOrder, OrderStatusCancelled, OrderStatusPaid, hp, hcn]

/-- C4 at the requested status `shipped`. -/
theorem C4_UpdateStatusOrder_invalid_status_witness :
    ("shipped" ≠ "paid" ∧ "shipped" ≠ "cancelled") ∧
    orderUsecase.UpdateStatusOrder (Env.ok 5 6 9) stockOk
        { OrderID := 1, Status := "shipped" } World.one
      = (some .ErrBadRequest, World.one) :=
  ⟨by decide,
    C4_UpdateStatusOrder_invalid_status (Env.ok 5 6 9) stockOk 1 "shipped" World.one
      (by decide) (by decide)⟩

/-- C5: for every order id, when the transaction begins and the status write and the commit
succeed: a request for `paid` whose remote call succeeds returns no error, sets status
`paid` on the order with that id, and issues `begin`, the update, one `setStatus` call for
the same id with reservation status `completed`, and `commit`; a request for `cancelled`
does the same with status `cancelled` and reservation status `cancelled`. -/
theorem C5_UpdateStatusOrder_paid_and_cancelled (env : Env) (stock : StockRepository)
    (id : Int) (w : World)
    (hb : env.beginTx = none) (hu : env.update = none) (hc : env.commit = none) :
    (stock.UpdateReservedStockStatus id { Status := "completed" } = none →
      orderUsecase.UpdateStatusOrder env stock { OrderID := id, Status := "paid" } w
        = (none,
            { orders := setStatusRows "paid" env.sqlNow id w.orders, lastID := w.lastID,
              log := w.log ++ [.begin, .update id "paid",
                .setStatus id { Status := "completed" }, .commit] }) ∧
      ∀ r ∈ w.orders, r.id = id →
        { r with status := "paid", updated_at := env.sqlNow } ∈
          (orderUsecase.UpdateStatusOrder env stock
            { OrderID := id, Status := "paid" } w).2.orders) ∧
    (stock.UpdateReservedStockStatus id { Status := "cancelled" } = none →
      orderUsecase.UpdateStatusOrder env stock { OrderID := id, Status := "cancelled" } w
        = (none,
            { orders := setStatusRows "cancelled" env.sqlNow id w.orders, lastID := w.lastID,
              log := w.log ++ [.begin, .update id "cancelled",
                .setStatus id { Status := "cancelled" }, .commit] }) ∧
      ∀ r ∈ w.orders, r.id = id →
        { r with status := "cancelled", updated_at := env.sqlNow } ∈
          (orderUsecase.UpdateStatusOrder env stock
            { OrderID := id, Status := "cancelled" } w).2.orders) := by
  constructor
  · intro hg
    have h := UpdateStatusOrder_success env stock id "paid" "completed" w
      (Or.inr ⟨rfl, rfl⟩) hb hu hc hg
    refine ⟨h, fun r hr hid => ?_⟩
    rw [h]
    exact mem_setStatusRows "paid" env.sqlNow id w.orders r hr hid
  · intro hg
    have h := UpdateStatusOrder_success env stock id "cancelled" "cancelled" w
      (Or.inl ⟨rfl, rfl⟩) hb hu hc hg
    refine ⟨h, fun r hr hid => ?_⟩
    rw [h]
    exact mem_setStatusRows "cancelled" env.sqlNow id w.orders r hr hid

/-- C5 at the store holding order 1: paying it and cancelling it. -/
theorem C5_UpdateStatusOrder_paid_and_cancelled_witness :
    (orderUsecase.UpdateStatusOrder (Env.ok 5 6 9) stockOk
          { OrderID := 1, Status := "paid" } World.one
        = (none,
            { orders := setStatusRows "paid" (Env.ok 5 6 9).sqlNow 1 World.one.orders,
              lastID := World.one.lastID,
              log := World.one.log ++ [.begin, .update 1 "paid",
                .setStatus 1 { Status := "completed" }, .commit] }) ∧
      ∀ r ∈ World.one.orders, r.id = 1 →
        { r with status := "paid", updated_at := (Env.ok 5 6 9).sqlNow } ∈
          (orderUsecase.UpdateStatusOrder (Env.ok 5 6 9) stockOk
            { OrderID := 1, Status := "paid" } World.one).2.orders) ∧
    (orderUsecase.UpdateStatusOrder (Env.ok 5 6 9) stockOk
          { OrderID := 1, Status := "cancelled" } World.one
        = (none,
            { orders := setStatusRows "cancelled" (Env.ok 5 6 9).sqlNow 1 World.one.orders,
              lastID := World.one.lastID,
              log := World.one.log ++ [.begin, .update 1 "cancelled",
                .setStatus 1 { Status := "cancelled" }, .commit] }) ∧
      ∀ r ∈ World.one.orders, r.id = 1 →
        { r with status := "cancelled", updated_at := (Env.ok 5 6 9).sqlNow } ∈
          (orderUsecase.UpdateStatusOrder (Env.ok 5 6 9) stockOk
            { OrderID := 1, Status := "cancelled" } World.one).2.orders) :=
  ⟨(C5_UpdateStatusOrder_paid_and_cancelled (Env.ok 5 6 9) stockOk 1 World.one
      rfl rfl rfl).1 rfl,
    (C5_UpdateStatusOrder_paid_and_cancelled (Env.ok 5 6 9) stockOk 1 World.one
      rfl rfl rfl).2 rfl⟩

/-- C6: with a working query, `GetOrderByID(userID, id)` fails with `ErrNotFound` when no
row has that id, whoever asks; fails with `ErrUnauthorized` (the error of the code for an
ownership mismatch, the `Forbidden` of the taxonomy) when the row exists and belongs to
another user; returns the stored row unchanged, each of the eight attributes being the
column of the row, when it exists and belongs to `userID`; and returns without error in no
other case. -/
theorem C6_GetOrderByID_cases (env : Env) (userID id : Int) (w : World)
    (hq : env.query = none) :
    (w.orders.find? (fun r => decide (r.id = id)) = none →
      ∀ u : Int, orderUsecase.GetOrderByID env u id w = (Order.empty, some .ErrNotFound)) ∧
    (∀ r : Row, w.orders.find? (fun r => decide (r.id = id)) = some r → r.user_id ≠ userID →
      orderUsecase.GetOrderByID env userID id w = (Order.empty, some .ErrUnauthorized)) ∧
    (∀ r : Row, w.orders.find? (fun r => decide (r.id = id)) = some r → r.user_id = userID →
      orderUsecase.GetOrderByID env userID id w
        = ({ ID := r.id, ProductID := r.product_id, Quantity := r.quantity,
             UserID := r.user_id, Status := r.status, CreatedAt := r.created_at,
             UpdatedAt := r.updated_at, ExpiredAt := r.expired_at }, none)) ∧
    (∀ o : Order, orderUsecase.GetOrderByID env userID id w = (o, none) →
      ∃ r : Row, w.orders.find? (fun r => decide (r.id = id)) = some r ∧
        r.user_id = userID ∧
        o = { ID := r.id, ProductID := r.product_id, Quantity := r.quantity,
              UserID := r.user_id, Status := r.status, CreatedAt := r.created_at,
              UpdatedAt := r.updated_at, ExpiredAt := r.expired_at }) := by
  refine ⟨fun hf u => GetOrderByID_absent env u id w hq hf, fun r hf hne => ?_,
    fun r hf heq => ?_, fun o ho => ?_⟩
  · rw [GetOrderByID_present env userID id w r hq hf, if_neg hne]
  · rw [GetOrderByID_present env userID id w r hq hf, if_pos heq, scanOrder]
  · cases hf : w.orders.find? (fun r => decide (r.id = id)) with
    | none =>
      rw [GetOrderByID_absent env userID id w hq hf] at ho
      simp at ho
    | some r =>
      rw [GetOrderByID_present env userID id w r hq hf] at ho
      by_cases hu : r.user_id = userID
      · rw [if_pos hu, scanOrder] at ho
        exact ⟨r, rfl, hu, by simpa using ho.symm⟩
      · rw [if_neg hu] at ho
        simp at ho

/-- C6 at the store holding order 1 of user 7 (product 42, quantity 3, waiting for
payment, created and updated at 5): the missing order 2, order 1 asked by user 8, and
order 1 asked by user 7, who gets every stored attribute. -/
theorem C6_GetOrderByID_cases_witness :
    (∀ u : Int,
      orderUsecase.GetOrderByID (Env.ok 5 6 9) u 2 World.one
        = (Order.empty, some .ErrNotFound)) ∧
    orderUsecase.GetOrderByID (Env.ok 5 6 9) 8 1 World.one
      = (Order.empty, some .ErrUnauthorized) ∧
    orderUsecase.GetOrderByID (Env.ok 5 6 9) 7 1 World.one
      = ({ ID := 1, ProductID := 42, Quantity := 3, UserID := 7,
           Status := "waiting_payment", CreatedAt := 5, UpdatedAt := 5, ExpiredAt := 0 },
          none) :=
  ⟨(C6_GetOrderByID_cases (Env.ok 5 6 9) 7 2 World.one rfl).1 (by decide),
    (C6_GetOrderByID_cases (Env.ok 5 6 9) 8 1 World.one rfl).2.1 Row.sample (by decide)
      (by decide),
    (C6_GetOrderByID_cases (Env.ok 5 6 9) 7 1 World.one rfl).2.2.1 Row.sample (by decide)
      (by decide)⟩

/-- C7: when the insert of `CreateOrder` fails with `e`, the call returns `e` together
with the empty `Order`, and the calls issued are `begin` and the insert only: the
reservation service is not called; when the insert succeeds and the reservation call
fails with `e`, the call returns `e` together with the empty `Order`. -/
theorem C7_CreateOrder_failure_returns_empty_order (env : Env) (stock : StockRepository)
    (userID : Int) (req : OrderCreateRequest) (w : World) (e : Error)
    (hb : env.beginTx = none) :
    (env.insert = some e →
      (orderUsecase.CreateOrder env stock userID req w).1 = (Order.empty, some e) ∧
      (orderUsecase.CreateOrder env stock userID req w).2.log
        = w.log ++ [.begin,
            .insert req.ProductID req.Quantity userID OrderStatusWaitingPayment] ∧
      ∀ r : ReservedStockCreateRequest,
        Event.reserve r ∉ [Event.begin,
            .insert req.ProductID req.Quantity userID OrderStatusWaitingPayment]) ∧
    (env.insert = none →
      stock.CreateReservedStock
        { ProductID := req.ProductID, Quantity := req.Quantity, OrderID := w.lastID + 1 }
        = some e →
      (orderUsecase.CreateOrder env stock userID req w).1 = (Order.empty, some e)) := by
  constructor
  · intro hi
    rw [CreateOrder_insert_error env stock userID req w e hb hi]
    exact ⟨rfl, rfl, fun r => by simp⟩
  · intro hi hg
    rw [CreateOrder_gateway_error env stock userID req w e hb hi hg]

/-- C7 at a failing insert and at a stock service that is down. -/
theorem C7_CreateOrder_failure_returns_empty_order_witness :
    ((orderUsecase.CreateOrder Env.insertFails stockOk 7 ⟨42, 3⟩ World.init).1
        = (Order.empty, some (.driver 23505)) ∧
      (orderUsecase.CreateOrder Env.insertFails stockOk 7 ⟨42, 3⟩ World.init).2.log
        = World.init.log ++ [.begin, .insert 42 3 7 OrderStatusWaitingPayment] ∧
      ∀ r : ReservedStockCreateRequest,
        Event.reserve r ∉ [Event.begin, .insert 42 3 7 OrderStatusWaitingPayment]) ∧
    (orderUsecase.CreateOrder (Env.ok 5 6 9) stockDown 7 ⟨42, 3⟩ World.init).1
      = (Order.empty, some (.gateway 503)) :=
  ⟨(C7_CreateOrder_failure_returns_empty_order Env.insertFails stockOk 7 ⟨42, 3⟩ World.init
      (.driver 23505) rfl).1 rfl,
    (C7_CreateOrder_failure_returns_empty_order (Env.ok 5 6 9) stockDown 7 ⟨42, 3⟩ World.init
      (.gateway 503) rfl).2 rfl rfl⟩

/-- C8 as stated fails: in a transaction whose table has no row with id 2, the update of
order 2 executes without a driver error and `UpdateStatusOrder` returns no error, having
changed no row. -/
theorem C8_counterexample_UpdateStatusOrder_missing_row_succeeds :
    (∀ r ∈ Tx.sample.view, r.id ≠ 2) ∧
    orderRepository.UpdateStatusOrder (Env.ok 5 6 9) 2 "paid" Tx.sample World.one
      = (none, Tx.sample, World.one.record (.update 2 "paid")) := by
  decide

/-- C8 amended: on an open transaction `UpdateStatusOrder(id, status)` returns exactly the
error of the statement execution, if any; when the execution succeeds it returns no error
whether or not a row with that id exists: the table of the transaction becomes the former
one in which every row with that id has the new status and `updated_at` set to SQL
`now()`, every other column and every other row being as before; so each row that had
that id is there with the new status and `updated_at`, every row with that id now has
them, and when there is no such row the table is left as it was. -/
theorem C8_UpdateStatusOrder_fails_only_on_driver_error (env : Env) (id : Int)
    (status : String) (tx : Tx) (w : World) (hopen : tx.done = false) :
    (orderRepository.UpdateStatusOrder env id status tx w).1 = env.update ∧
    (env.update = none →
      orderRepository.UpdateStatusOrder env id status tx w
        = (none,
            { view := tx.view.map (fun r =>
                if r.id = id then
                  { id := r.id, product_id := r.product_id, quantity := r.quantity,
                    user_id := r.user_id, status := status, created_at := r.created_at,
                    updated_at := env.sqlNow, expired_at := r.expired_at }
                else r),
              done := false },
            { orders := w.orders, lastID := w.lastID,
              log := w.log ++ [.update id status] })) ∧
    (env.update = none →
      ∀ r ∈ tx.view, r.id = id →
        { id := r.id, product_id := r.product_id, quantity := r.quantity,
          user_id := r.user_id, status := status, created_at := r.created_at,
          updated_at := env.sqlNow, expired_at := r.expired_at }
          ∈ (orderRepository.UpdateStatusOrder env id status tx w).2.1.view) ∧
    (env.update = none →
      ∀ x ∈ (orderRepository.UpdateStatusOrder env id status tx w).2.1.view, x.id = id →
        x.status = status ∧ x.updated_at = env.sqlNow) ∧
    (env.update = none → (∀ r ∈ tx.view, r.id ≠ id) →
      orderRepository.UpdateStatusOrder env id status tx w
        = (none, tx, { orders := w.orders, lastID := w.lastID,
                       log := w.log ++ [.update id status] })) := by
  have hrun : env.update = none →
      orderRepository.UpdateStatusOrder env id status tx w
        = (none,
            { view := tx.view.map (fun r =>
                if r.id = id then
                  { id := r.id, product_id := r.product_id, quantity := r.quantity,
                    user_id := r.user_id, status := status, created_at := r.created_at,
                    updated_at := env.sqlNow, expired_at := r.expired_at }
                else r),
              done := false },
            { orders := w.orders, lastID := w.lastID,
              log := w.log ++ [.update id status] }) := by
    intro hu
    cases tx
    simp_all [orderRepository.UpdateStatusOrder, Tx.ExecUpdate, setStatusRows, World.record]
  refine ⟨?_, hrun, fun hu r hr hid => ?_, fun hu x hx hid => ?_, fun hu habs => ?_⟩
  · cases hu : env.update <;>
      simp [orderRepository.UpdateStatusOrder, Tx.ExecUpdate, hopen, hu]
  · rw [hrun hu]
    exact List.mem_map.mpr ⟨r, hr, by simp [hid]⟩
  · rw [hrun hu] at hx
    obtain ⟨r, _, hrx⟩ := List.mem_map.mp hx
    by_cases h : r.id = id
    · rw [if_pos h] at hrx
      subst hrx
      exact ⟨rfl, rfl⟩
    · rw [if_neg h] at hrx
      subst hrx
      exact absurd hid h
  · have hsame := setStatusRows_absent status env.sqlNow id tx.view habs
    unfold setStatusRows at hsame
    rw [hrun hu, hsame]
    cases tx
    cases hopen
    rfl

/-- C8 amended, at the transaction holding order 1 (waiting for payment, updated at 5),
with SQL `now()` at 9: paying the existing order 1 writes status `paid` and `updated_at`
9 on it and nothing else; paying the missing order 2 succeeds and changes nothing. -/
theorem C8_UpdateStatusOrder_fails_only_on_driver_error_witness :
    (orderRepository.UpdateStatusOrder (Env.ok 5 6 9) 1 "paid" Tx.sample World.one).1 = none ∧
    (orderRepository.UpdateStatusOrder (Env.ok 5 6 9) 1 "paid" Tx.sample World.one).2.1.view
      = [{ id := 1, product_id := 42, quantity := 3, user_id := 7, status := "paid",
           created_at := 5, updated_at := 9, expired_at := 0 }] ∧
    ({ id := 1, product_id := 42, quantity := 3, user_id := 7, status := "paid",
       created_at := 5, updated_at := 9, expired_at := 0 } : Row)
      ∈ (orderRepository.UpdateStatusOrder (Env.ok 5 6 9) 1 "paid" Tx.sample
          World.one).2.1.view ∧
    (∀ x ∈ (orderRepository.UpdateStatusOrder (Env.ok 5 6 9) 1 "paid" Tx.sample
          World.one).2.1.view, x.id = 1 → x.status = "paid" ∧ x.updated_at = 9) ∧
    orderRepository.UpdateStatusOrder (Env.ok 5 6 9) 2 "paid" Tx.sample World.one
      = (none,
          { view := [{ id := 1, product_id := 42, quantity := 3, user_id := 7,
                       status := "waiting_payment", created_at := 5, updated_at := 5,
                       expired_at := 0 }],
            done := false },
          { orders := World.one.orders, lastID := 1, log := [.update 2 "paid"] }) :=
  ⟨(C8_UpdateStatusOrder_fails_only_on_driver_error (Env.ok 5 6 9) 1 "paid" Tx.sample
      World.one rfl).1,
    congrArg (fun out => out.2.1.view)
      ((C8_UpdateStatusOrder_fails_only_on_driver_error (Env.ok 5 6 9) 1 "paid" Tx.sample
        World.one rfl).2.1 rfl),
    (C8_UpdateStatusOrder_fails_only_on_driver_error (Env.ok 5 6 9) 1 "paid" Tx.sample
      World.one rfl).2.2.1 rfl Row.sample (by decide) rfl,
    (C8_UpdateStatusOrder_fails_only_on_driver_error (Env.ok 5 6 9) 1 "paid" Tx.sample
      World.one rfl).2.2.2.1 rfl,
    (C8_UpdateStatusOrder_fails_only_on_driver_error (Env.ok 5 6 9) 2 "paid" Tx.sample
      World.one rfl).2.2.2.2 rfl (by decide)⟩

/-- C9, the code at a request with quantity `-3`: the body parses, validation passes and
the user is known; the handler answers 201, the usecase has been handed quantity `-3`, and
the order committed has quantity `-3`. -/
theorem C9_CreateOrder_handler_accepts_nonpositive_quantity :
    (OrderHandler.CreateOrder (fun _ => 500) (Env.ok 5 6 9) stockOk
        { body := some { ProductID := 42, Quantity := -3 }, userID := some 7 }
        World.init).1.status = 201 ∧
    (OrderHandler.CreateOrder (fun _ => 500) (Env.ok 5 6 9) stockOk
        { body := some { ProductID := 42, Quantity := -3 }, userID := some 7 }
        World.init).2.1 = some (7, { ProductID := 42, Quantity := -3 }) ∧
    (OrderHandler.CreateOrder (fun _ => 500) (Env.ok 5 6 9) stockOk
        { body := some { ProductID := 42, Quantity := -3 }, userID := some 7 }
        World.init).2.2.orders
      = [{ id := 1, product_id := 42, quantity := -3, user_id := 7,
           status := "waiting_payment", created_at := 5, updated_at := 6,
           expired_at := 0 }] := by
  decide

/-- C10 as stated fails: an order created at clock readings 5 and 6 is returned with
zero timestamps, and read back at once by its user it has timestamps 5 and 6, so the order
read differs from the order returned. -/
theorem C10_counterexample_timestamps_differ :
    (orderUsecase.CreateOrder (Env.ok 5 6 9) stockOk 7 ⟨42, 3⟩ World.init).1.2 = none ∧
    (orderUsecase.GetOrderByID (Env.ok 5 6 9) 7
        (orderUsecase.CreateOrder (Env.ok 5 6 9) stockOk 7 ⟨42, 3⟩ World.init).1.1.ID
        (orderUsecase.CreateOrder (Env.ok 5 6 9) stockOk 7 ⟨42, 3⟩ World.init).2).2 = none ∧
    (orderUsecase.GetOrderByID (Env.ok 5 6 9) 7
        (orderUsecase.CreateOrder (Env.ok 5 6 9) stockOk 7 ⟨42, 3⟩ World.init).1.1.ID
        (orderUsecase.CreateOrder (Env.ok 5 6 9) stockOk 7 ⟨42, 3⟩ World.init).2).1
      ≠ (orderUsecase.CreateOrder (Env.ok 5 6 9) stockOk 7 ⟨42, 3⟩ World.init).1.1 ∧
    (orderUsecase.CreateOrder (Env.ok 5 6 9) stockOk 7 ⟨42, 3⟩ World.init).1.1.CreatedAt
      = 0 ∧
    (orderUsecase.GetOrderByID (Env.ok 5 6 9) 7
        (orderUsecase.CreateOrder (Env.ok 5 6 9) stockOk 7 ⟨42, 3⟩ World.init).1.1.ID
        (orderUsecase.CreateOrder (Env.ok 5 6 9) stockOk 7 ⟨42, 3⟩ World.init).2).1.CreatedAt
      = 5 := by
  decide

/-- C10 amended: for every successful `CreateOrder(userID, req)` on a store whose ids come
from the sequence, `GetOrderByID(userID, returned.ID)` called next with a working query
succeeds, and the order read equals the returned one in ID, product, quantity, user and
status; the returned order carries zero creation and last-update timestamps, and the order
read carries the two clock readings of the insert. -/
theorem C10_CreateOrder_then_GetOrderByID (env env2 : Env) (stock : StockRepository)
    (userID : Int) (req : OrderCreateRequest) (w : World) (hwf : w.WF)
    (hok : (orderUsecase.CreateOrder env stock userID req w).1.2 = none)
    (hq : env2.query = none) :
    (orderUsecase.CreateOrder env stock userID req w).1.1.CreatedAt = 0 ∧
    (orderUsecase.CreateOrder env stock userID req w).1.1.UpdatedAt = 0 ∧
    orderUsecase.GetOrderByID env2 userID
        (orderUsecase.CreateOrder env stock userID req w).1.1.ID
        (orderUsecase.CreateOrder env stock userID req w).2
      = ({ (orderUsecase.CreateOrder env stock userID req w).1.1 with
            CreatedAt := env.timeNow1, UpdatedAt := env.timeNow2 }, none) := by
  obtain ⟨hb, hi, hc, hg⟩ := CreateOrder_ok_inv env stock userID req w hok
  rw [CreateOrder_success env stock userID req w hb hi hc hg]
  refine ⟨rfl, rfl, ?_⟩
  have := GetOrderByID_after_insert env2 userID w
    { id := w.lastID + 1, product_id := req.ProductID, quantity := req.Quantity,
      user_id := userID, status := OrderStatusWaitingPayment, created_at := env.timeNow1,
      updated_at := env.timeNow2, expired_at := 0 } (w.lastID + 1)
    (w.log ++ [.begin, .insert req.ProductID req.Quantity userID OrderStatusWaitingPayment,
      .reserve { ProductID := req.ProductID, Quantity := req.Quantity,
                 OrderID := w.lastID + 1 }, .commit]) hwf hq rfl rfl
  simpa [scanOrder] using this

/-- C10 amended, at an order created in the store holding order 1. -/
theorem C10_CreateOrder_then_GetOrderByID_witness :
    (orderUsecase.CreateOrder (Env.ok 5 6 9) stockOk 7 ⟨42, 3⟩ World.one).1.1.CreatedAt = 0 ∧
    (orderUsecase.CreateOrder (Env.ok 5 6 9) stockOk 7 ⟨42, 3⟩ World.one).1.1.UpdatedAt = 0 ∧
    orderUsecase.GetOrderByID (Env.ok 1 1 1) 7
        (orderUsecase.CreateOrder (Env.ok 5 6 9) stockOk 7 ⟨42, 3⟩ World.one).1.1.ID
        (orderUsecase.CreateOrder (Env.ok 5 6 9) stockOk 7 ⟨42, 3⟩ World.one).2
      = ({ (orderUsecase.CreateOrder (Env.ok 5 6 9) stockOk 7 ⟨42, 3⟩ World.one).1.1 with
            CreatedAt := (Env.ok 5 6 9).timeNow1, UpdatedAt := (Env.ok 5 6 9).timeNow2 },
          none) :=
  C10_CreateOrder_then_GetOrderByID (Env.ok 5 6 9) (Env.ok 1 1 1) stockOk 7 ⟨42, 3⟩ World.one
    (by decide) (by decide) rfl

/-- C11: for a requested status `paid` or `cancelled`, once the transaction has begun: when
the status write succeeds and the remote `setStatus` call fails with `e`, the call returns
`e`, the committed rows are those from before the call, so that every order read by
`GetOrderByID` (status and last-update timestamp included) is as before, and the calls
issued are `begin`, the update and the `setStatus` call; when the status write itself
fails with `e`, the call returns `e`, the committed rows are unchanged and the calls
issued are `begin` and the update only: the remote service is not called. -/
theorem C11_UpdateStatusOrder_failure_leaves_store_unchanged (env : Env)
    (stock : StockRepository) (id : Int) (status rstatus : String) (w : World) (e : Error)
    (hs : (status = "cancelled" ∧ rstatus = "cancelled") ∨
          (status = "paid" ∧ rstatus = "completed"))
    (hb : env.beginTx = none) :
    (env.update = none →
      stock.UpdateReservedStockStatus id { Status := rstatus } = some e →
      (orderUsecase.UpdateStatusOrder env stock { OrderID := id, Status := status } w).1
        = some e ∧
      (orderUsecase.UpdateStatusOrder env stock { OrderID := id, Status := status } w).2.orders
        = w.orders ∧
      (∀ (env2 : Env) (u j : Int),
        orderUsecase.GetOrderByID env2 u j
            (orderUsecase.UpdateStatusOrder env stock
              { OrderID := id, Status := status } w).2
          = orderUsecase.GetOrderByID env2 u j w) ∧
      (orderUsecase.UpdateStatusOrder env stock { OrderID := id, Status := status } w).2.log
        = w.log ++ [.begin, .update id status, .setStatus id { Status := rstatus }]) ∧
    (env.update = some e →
      (orderUsecase.UpdateStatusOrder env stock { OrderID := id, Status := status } w).1
        = some e ∧
      (orderUsecase.UpdateStatusOrder env stock { OrderID := id, Status := status } w).2.orders
        = w.orders ∧
      (orderUsecase.UpdateStatusOrder env stock { OrderID := id, Status := status } w).2.log
        = w.log ++ [.begin, .update id status] ∧
      ∀ (j : Int) (rs : ReservedStockUpdateRequest),
        Event.setStatus j rs ∉ [Event.begin, .update id status]) := by
  constructor
  · intro hu hg
    rw [UpdateStatusOrder_gateway_error env stock id status rstatus w e hs hb hu hg]
    exact ⟨rfl, rfl, fun env2 u j => GetOrderByID_congr env2 u j _ w rfl, rfl⟩
  · intro hu
    have hs2 : status = "cancelled" ∨ status = "paid" := hs.imp (fun h => h.1) (fun h => h.1)
    rw [UpdateStatusOrder_update_error env stock id status w e hs2 hb hu]
    exact ⟨rfl, rfl, rfl, fun j rs => by simp⟩

/-- C11 at the store holding order 1: paying it with the stock service down, and
cancelling it with a failing status write. -/
theorem C11_UpdateStatusOrder_failure_leaves_store_unchanged_witness :
    ((orderUsecase.UpdateStatusOrder (Env.ok 5 6 9) stockDown
          { OrderID := 1, Status := "paid" } World.one).1 = some (.gateway 503) ∧
      (orderUsecase.UpdateStatusOrder (Env.ok 5 6 9) stockDown
          { OrderID := 1, Status := "paid" } World.one).2.orders = World.one.orders ∧
      (∀ (env2 : Env) (u j : Int),
        orderUsecase.GetOrderByID env2 u j
            (orderUsecase.UpdateStatusOrder (Env.ok 5 6 9) stockDown
              { OrderID := 1, Status := "paid" } World.one).2
          = orderUsecase.GetOrderByID env2 u j World.one) ∧
      (orderUsecase.UpdateStatusOrder (Env.ok 5 6 9) stockDown
          { OrderID := 1, Status := "paid" } World.one).2.log
        = World.one.log ++ [.begin, .update 1 "paid",
            .setStatus 1 { Status := "completed" }]) ∧
    ((orderUsecase.UpdateStatusOrder Env.updateFails stockOk
          { OrderID := 1, Status := "cancelled" } World.one).1 = some (.driver 40001) ∧
      (orderUsecase.UpdateStatusOrder Env.updateFails stockOk
          { OrderID := 1, Status := "cancelled" } World.one).2.orders = World.one.orders ∧
      (orderUsecase.UpdateStatusOrder Env.updateFails stockOk
          { OrderID := 1, Status := "cancelled" } World.one).2.log
        = World.one.log ++ [.begin, .update 1 "cancelled"] ∧
      ∀ (j : Int) (rs : ReservedStockUpdateRequest),
        Event.setStatus j rs ∉ [Event.begin, .update 1 "cancelled"]) :=
  ⟨(C11_UpdateStatusOrder_failure_leaves_store_unchanged (Env.ok 5 6 9) stockDown 1 "paid"
      "completed" World.one (.gateway 503) (Or.inr ⟨rfl, rfl⟩) rfl).1 rfl rfl,
    (C11_UpdateStatusOrder_failure_leaves_store_unchanged Env.updateFails stockOk 1
      "cancelled" "cancelled" World.one (.driver 40001) (Or.inl ⟨rfl, rfl⟩) rfl).2 rfl⟩

/-- C12: the current status is not looked at. For every order found under `id`, whatever
its status, and every requested status `paid` or `cancelled`, when the transaction begins
and the update, the remote call and the commit succeed: the call returns no error; the
order read back by its user is the one from before with the requested status and with
`updated_at` set to SQL `now()`, every other attribute as it was; the lookup of every
other id gives what it gave before; the committed table is the former one with exactly
that change on the rows of that id; and the calls issued are `begin`, the update, the
matching `setStatus` call and `commit`. -/
theorem C12_UpdateStatusOrder_writes_whatever_current_status (env env2 : Env)
    (stock : StockRepository) (id : Int) (status rstatus : String) (w : World) (r : Row)
    (hs : (status = "cancelled" ∧ rstatus = "cancelled") ∨
          (status = "paid" ∧ rstatus = "completed"))
    (hfind : w.orders.find? (fun x => decide (x.id = id)) = some r)
    (hb : env.beginTx = none) (hu : env.update = none) (hc : env.commit = none)
    (hg : stock.UpdateReservedStockStatus id { Status := rstatus } = none)
    (hq : env2.query = none) :
    (orderUsecase.UpdateStatusOrder env stock { OrderID := id, Status := status } w).1
      = none ∧
    orderUsecase.GetOrderByID env2 r.user_id id
        (orderUsecase.UpdateStatusOrder env stock { OrderID := id, Status := status } w).2
      = ({ scanOrder r with Status := status, UpdatedAt := env.sqlNow }, none) ∧
    (∀ u j : Int, j ≠ id →
      orderUsecase.GetOrderByID env2 u j
          (orderUsecase.UpdateStatusOrder env stock { OrderID := id, Status := status } w).2
        = orderUsecase.GetOrderByID env2 u j w) ∧
    (orderUsecase.UpdateStatusOrder env stock { OrderID := id, Status := status } w).2.orders
      = w.orders.map (fun x =>
          if x.id = id then { x with status := status, updated_at := env.sqlNow } else x) ∧
    (orderUsecase.UpdateStatusOrder env stock { OrderID := id, Status := status } w).2.log
      = w.log ++ [.begin, .update id status, .setStatus id { Status := rstatus },
          .commit] := by
  rw [UpdateStatusOrder_success env stock id status rstatus w hs hb hu hc hg]
  refine ⟨rfl, ?_, fun u j hj => ?_, rfl, rfl⟩
  · have hf : (setStatusRows status env.sqlNow id w.orders).find?
          (fun x => decide (x.id = id))
        = some { r with status := status, updated_at := env.sqlNow } := by
      rw [find_setStatusRows_same, hfind]
      rfl
    rw [GetOrderByID_present env2 r.user_id id _ _ hq hf, if_pos rfl]
    rfl
  · exact GetOrderByID_of_find_eq env2 u j _ w
      (find_setStatusRows_other status env.sqlNow id j w.orders hj)

/-- C12 at a store whose order 1 is already `paid`: cancelling it goes through, and
order 2 is as before. -/
theorem C12_UpdateStatusOrder_writes_whatever_current_status_witness :
    (orderUsecase.UpdateStatusOrder (Env.ok 5 6 9) stockOk
        { OrderID := 1, Status := "cancelled" } World.two).1 = none ∧
    orderUsecase.GetOrderByID (Env.ok 1 1 1) 7 1
        (orderUsecase.UpdateStatusOrder (Env.ok 5 6 9) stockOk
          { OrderID := 1, Status := "cancelled" } World.two).2
      = ({ ID := 1, ProductID := 42, Quantity := 3, UserID := 7, Status := "cancelled",
           CreatedAt := 5, UpdatedAt := 9, ExpiredAt := 0 }, none) ∧
    (∀ u j : Int, j ≠ 1 →
      orderUsecase.GetOrderByID (Env.ok 1 1 1) u j
          (orderUsecase.UpdateStatusOrder (Env.ok 5 6 9) stockOk
            { OrderID := 1, Status := "cancelled" } World.two).2
        = orderUsecase.GetOrderByID (Env.ok 1 1 1) u j World.two) ∧
    (orderUsecase.UpdateStatusOrder (Env.ok 5 6 9) stockOk
        { OrderID := 1, Status := "cancelled" } World.two).2.orders
      = World.two.orders.map (fun x =>
          if x.id = 1 then { x with status := "cancelled", updated_at := 9 } else x) ∧
    (orderUsecase.UpdateStatusOrder (Env.ok 5 6 9) stockOk
        { OrderID := 1, Status := "cancelled" } World.two).2.log
      = World.two.log ++ [.begin, .update 1 "cancelled",
          .setStatus 1 { Status := "cancelled" }, .commit] :=
  C12_UpdateStatusOrder_writes_whatever_current_status (Env.ok 5 6 9) (Env.ok 1 1 1) stockOk 1
    "cancelled" "cancelled" World.two { Row.sample with status := "paid", updated_at := 8 }
    (Or.inl ⟨rfl, rfl⟩) (by decide) rfl rfl rfl rfl rfl

end OrderService
